import Mathlib

/-!
Shallow embedding of the SQLite-backed state store in
`src/libpod/sqlite_state.go` (package libpod).

The store is a single SQLite database; we model the visible rows of each
table as Lean lists (in rowid / insertion order), and each method of
`SQLiteState` as a Lean function from the store value (plus its arguments)
to a result.  Every multi-row write in the source is wrapped in a
transaction whose deferred `Rollback` restores the pre-call state on any
error; operations that mutate the database therefore return the pair
`(new store, optional error)`, where the first component is the original
store whenever an error is reported (that is exactly what commit/rollback
makes visible to other readers).

JSON payloads (container/pod/volume state and config documents) are never
parsed by the queries we model; they travel as opaque `String`s, exactly
as the source treats them apart from marshal/unmarshal steps that live
outside this file (`resetContainerState` and friends are parameters).

Two statements in the source are not valid SQLite syntax and make the
executing call fail: `Refresh` and `SaveVolume` issue
`UPDATE TABLE <name> SET ...`, where `TABLE` cannot appear (the SQLite
update grammar is `UPDATE qualified-table-name SET ...`, and an alias
needs `AS`).  We model the execution of such a statement as the error
`StateErr.sqlMalformed`, carrying the offending statement head.
-/

namespace Libpod

/-- A row of the `ContainerConfig` table: `(ID pk, Name unique, Pod, JSON)`.
The `Pod` column is empty for containers outside any pod. -/
structure CtrConfigRow where
  id : String
  name : String
  pod : String
  json : String
deriving DecidableEq, Repr

/-- A row of the `VolumeConfig` table: `(Name pk, StorageID nullable, JSON)`. -/
structure VolumeConfigRow where
  name : String
  storageID : Option String
  json : String
deriving DecidableEq, Repr

/-- The singleton `DBConfig` row, as written by `ValidateDBConfig`:
`(Id, SchemaVersion, Os, StaticDir, TmpDir, GraphRoot, RunRoot, GraphDriver, VolumeDir)`. -/
structure DBConfigRow where
  rowId : Int
  schemaVersion : Int
  os : String
  staticDir : String
  tmpDir : String
  graphRoot : String
  runRoot : String
  graphDriver : String
  volumeDir : String
deriving DecidableEq, Repr

/-- A row of the `ContainerExitCode` table: `(ID, Timestamp, ExitCode)`.
`Timestamp` is a Unix time in seconds, as produced by `time.Now().Unix()`. -/
structure ExitCodeRow where
  id : String
  timestamp : Int
  exitCode : Int
deriving DecidableEq, Repr

/-- The visible rows of the database, one list per table, in rowid order.
State tables (`ContainerState`, `PodState`, `VolumeState`) map the entity
key to its marshalled state JSON.  `ContainerDependency` rows are
`(ID, DependencyID)`, `ContainerVolume` rows are `(ContainerID, VolumeName)`,
`ContainerExecSession` rows are `(ID, ContainerID)`. -/
structure Db where
  containerConfig : List CtrConfigRow
  containerState : List (String × String)
  podState : List (String × String)
  volumeConfig : List VolumeConfigRow
  volumeState : List (String × String)
  containerDependency : List (String × String)
  containerVolume : List (String × String)
  containerExecSession : List (String × String)
  containerExitCode : List ExitCodeRow
  dbConfig : Option DBConfigRow
deriving DecidableEq, Repr

/-- The errors of `libpod/define` reachable from the modelled operations,
plus `sqlMalformed` for the execution of a syntactically invalid SQL
statement (see the file header).  Error wrapping with `fmt.Errorf("...: %w")`
is dropped; only the sentinel (and the data printed into the message that
the claims talk about, such as the in-use container list or the mismatched
config field) is kept. -/
inductive StateErr where
  | dbClosed
  | emptyID
  | noSuchCtr
  | ctrExists
  | ctrRemoved
  | invalidArg
  | podExists
  | noSuchVolume
  | volumeRemoved
  | volumeBeingUsed (ctrs : List String)
  | noSuchExitCode
  | dbBadConfig (field dbVal ourVal : String)
  | internalErr
  | sqlMalformed (stmt : String)
deriving DecidableEq, Repr

/-- The `SQLiteState` struct: the `valid` open/closed flag and the database
the connection sees. -/
structure SQLiteState where
  valid : Bool
  db : Db
deriving DecidableEq, Repr

/-- A `Container` handle as the modelled operations see it: the ID and Pod
reference from its config, the `valid` (Live/Invalidated) flag, and the
marshalled form of its in-memory mutable state. -/
structure Container where
  id : String
  pod : String
  valid : Bool
  stateJSON : String
deriving DecidableEq, Repr

/-- A `Volume` handle: its name, the `valid` flag, and the marshalled form
of its in-memory mutable state. -/
structure Volume where
  name : String
  valid : Bool
  stateJSON : String
deriving DecidableEq, Repr

/-- All suffixes of a character list, longest first, ending with `[]`. -/
def tailsOf : List Char → List (List Char)
  | [] => [[]]
  | c :: cs => (c :: cs) :: tailsOf cs

/-- The SQLite `LIKE` operator on character lists (default behaviour, no
`ESCAPE` clause): `%` matches any sequence of characters, `_` matches one
character, and letter comparison is ASCII case-insensitive.  First argument
is the pattern, second the value. -/
def likeChars : List Char → List Char → Bool
  | [], s => s.isEmpty
  | '%' :: ps, s => (tailsOf s).any fun t => likeChars ps t
  | '_' :: _, [] => false
  | '_' :: ps, _ :: s => likeChars ps s
  | _ :: _, [] => false
  | p :: ps, c :: s => (p.toLower == c.toLower) && likeChars ps s

/-- The SQLite expression `v LIKE pattern`. -/
def sqlLike (pattern v : String) : Bool :=
  likeChars pattern.toList v.toList

/-- The rows returned by
`SELECT ... FROM ContainerConfig WHERE ContainerConfig.Name=? OR (ContainerConfig.ID LIKE ?);`
with both placeholders bound to `idOrName`, as issued by `LookupContainerID`
and `LookupContainer`.  Note the source binds the raw term as the `LIKE`
pattern, without appending a `%` wildcard. -/
def lookupCtrRows (db : Db) (idOrName : String) : List CtrConfigRow :=
  db.containerConfig.filter fun r => r.name == idOrName || sqlLike idOrName r.id

/-- `LookupContainerID` (sqlite_state.go:460-492): empty-term and closed-store
guards, then the lookup query; the row loop fails with `ErrCtrExists` on a
second row, `ErrNoSuchCtr` on none, and returns the single ID otherwise. -/
def LookupContainerID (s : SQLiteState) (idOrName : String) : Except StateErr String :=
  if idOrName == "" then .error .emptyID
  else if !s.valid then .error .dbClosed
  else
    match lookupCtrRows s.db idOrName with
    | [] => .error .noSuchCtr
    | [r] => .ok r.id
    | _ :: _ :: _ => .error .ctrExists

/-- `LookupContainer` (sqlite_state.go:496-541): same query and row loop as
`LookupContainerID`, but returns the stored config row (the source
unmarshals its JSON column into a fresh handle). -/
def LookupContainer (s : SQLiteState) (idOrName : String) : Except StateErr CtrConfigRow :=
  if idOrName == "" then .error .emptyID
  else if !s.valid then .error .dbClosed
  else
    match lookupCtrRows s.db idOrName with
    | [] => .error .noSuchCtr
    | [r] => .ok r
    | _ :: _ :: _ => .error .ctrExists

/-- `Refresh` (sqlite_state.go:93-243).  The three read loops collect every
`ContainerState` / `PodState` / `VolumeState` row and pass its JSON through
unmarshal, an entity-specific reset, and marshal; those reset pipelines
live outside this file and are taken as the parameters `resetCtr`,
`resetPod`, `resetVol`.  The write-back transaction then executes one
`UPDATE TABLE <StateTable> SET JSON=? WHERE ...` per collected row --
a statement SQLite rejects as a syntax error -- so the first update of a
non-empty map fails and the deferred `tx.Rollback()` leaves the database
untouched.  Only when all three maps are empty does the transaction reach
`DELETE FROM ContainerExitCode;` and `DELETE FROM ContainerExecSession;`
and commit. -/
def Refresh (resetCtr resetPod resetVol : String → String) (s : SQLiteState) :
    SQLiteState × Option StateErr :=
  if !s.valid then (s, some .dbClosed)
  else
    match s.db.containerState.map (fun r => (r.1, resetCtr r.2)),
        s.db.podState.map (fun r => (r.1, resetPod r.2)),
        s.db.volumeState.map (fun r => (r.1, resetVol r.2)) with
    | [], [], [] =>
        ({ s with db := { s.db with containerExitCode := [], containerExecSession := [] } },
          none)
    | _ :: _, _, _ => (s, some (.sqlMalformed "UPDATE TABLE ContainerState"))
    | [], _ :: _, _ => (s, some (.sqlMalformed "UPDATE TABLE PodState"))
    | [], [], _ :: _ => (s, some (.sqlMalformed "UPDATE TABLE VolumeState"))

/-- The runtime-side values compared or written by `ValidateDBConfig`:
`goruntime.GOOS` and the `filepath.Clean`ed engine/storage paths and
driver name (cleaning happens before this function in the source, so the
fields here hold the already-cleaned strings). -/
structure RuntimeConfig where
  os : String
  staticDir : String
  tmpDir : String
  graphRoot : String
  runRoot : String
  graphDriver : String
  volumePath : String
deriving DecidableEq, Repr

/-- The defaults returned by `storage.DefaultStoreOptions`, used when the
corresponding runtime field is empty. -/
structure StoreOptions where
  graphRoot : String
  runRoot : String
  graphDriverName : String
deriving DecidableEq, Repr

/-- `runtimeGraphRoot` after the empty-default substitution in
`ValidateDBConfig`. -/
def effGraphRoot (rt : RuntimeConfig) (so : StoreOptions) : String :=
  if rt.graphRoot == "" then so.graphRoot else rt.graphRoot

/-- `runtimeRunRoot` after the empty-default substitution in
`ValidateDBConfig`. -/
def effRunRoot (rt : RuntimeConfig) (so : StoreOptions) : String :=
  if rt.runRoot == "" then so.runRoot else rt.runRoot

/-- `runtimeGraphDriver` after the empty-default substitution in
`ValidateDBConfig`. -/
def effGraphDriver (rt : RuntimeConfig) (so : StoreOptions) : String :=
  if rt.graphDriver == "" then so.graphDriverName else rt.graphDriver

/-- The row inserted by the `createRow` statement of `ValidateDBConfig`:
`(1, schemaVersion, runtimeOS, runtimeStaticDir, runtimeTmpDir,
runtimeGraphRoot, runtimeRunRoot, runtimeGraphDriver, runtimeVolumePath)`. -/
def freshDBConfigRow (rt : RuntimeConfig) (so : StoreOptions) : DBConfigRow :=
  { rowId := 1, schemaVersion := 1, os := rt.os, staticDir := rt.staticDir,
    tmpDir := rt.tmpDir, graphRoot := effGraphRoot rt so,
    runRoot := effRunRoot rt so, graphDriver := effGraphDriver rt so,
    volumeDir := rt.volumePath }

/-- `ValidateDBConfig` (sqlite_state.go:275-379).  With no `DBConfig` row,
inserts the `freshDBConfigRow` in a transaction and succeeds.  With a row,
runs `checkField` on each column in source order (os, static dir, tmp dir,
graph root, run root, graph driver, volume path); the first mismatch
returns `ErrDBBadConfig` carrying the field name, the database value and
the runtime value, leaving the database untouched. -/
def ValidateDBConfig (s : SQLiteState) (rt : RuntimeConfig) (so : StoreOptions) :
    SQLiteState × Option StateErr :=
  if !s.valid then (s, some .dbClosed)
  else
    match s.db.dbConfig with
    | none =>
        ({ s with db := { s.db with dbConfig := some (freshDBConfigRow rt so) } }, none)
    | some c =>
        if c.os != rt.os then
          (s, some (.dbBadConfig "os" c.os rt.os))
        else if c.staticDir != rt.staticDir then
          (s, some (.dbBadConfig "static dir" c.staticDir rt.staticDir))
        else if c.tmpDir != rt.tmpDir then
          (s, some (.dbBadConfig "tmp dir" c.tmpDir rt.tmpDir))
        else if c.graphRoot != effGraphRoot rt so then
          (s, some (.dbBadConfig "graph root" c.graphRoot (effGraphRoot rt so)))
        else if c.runRoot != effRunRoot rt so then
          (s, some (.dbBadConfig "run root" c.runRoot (effRunRoot rt so)))
        else if c.graphDriver != effGraphDriver rt so then
          (s, some (.dbBadConfig "graph driver" c.graphDriver (effGraphDriver rt so)))
        else if c.volumeDir != rt.volumePath then
          (s, some (.dbBadConfig "volume path" c.volumeDir rt.volumePath))
        else (s, none)

/-- `AddContainer` (sqlite_state.go:570-584): closed-store and removed-handle
guards, then the pod-membership guard returning `ErrInvalidArg`, then the
shared insertion helper `s.addContainer` -- which is defined in another
file of the repository and is therefore a parameter here; the guards fire
before it is ever invoked. -/
def AddContainer (addCtr : SQLiteState → Container → SQLiteState × Option StateErr)
    (s : SQLiteState) (ctr : Container) : SQLiteState × Option StateErr :=
  if !s.valid then (s, some .dbClosed)
  else if !ctr.valid then (s, some .ctrRemoved)
  else if ctr.pod != "" then (s, some .invalidArg)
  else addCtr s ctr

/-- `RemoveContainer` (sqlite_state.go:589-599): closed-store guard, then the
pod-membership guard returning `ErrPodExists` (note: not `ErrInvalidArg`,
and no removed-handle check), then the shared removal helper
`s.removeContainer`, a parameter for the same reason as in `AddContainer`. -/
def RemoveContainer (removeCtr : SQLiteState → Container → SQLiteState × Option StateErr)
    (s : SQLiteState) (ctr : Container) : SQLiteState × Option StateErr :=
  if !s.valid then (s, some .dbClosed)
  else if ctr.pod != "" then (s, some .podExists)
  else removeCtr s ctr

/-- `SaveContainer` (sqlite_state.go:633-677): guards, then in a transaction
`UPDATE ContainerState SET JSON=? WHERE ID=?;` with the marshalled handle
state; `RowsAffected` is the number of `ContainerState` rows whose ID
matches.  Zero affected rows invalidates the handle and fails
`ErrNoSuchCtr` (rollback); otherwise the transaction commits.  Returns
(the store, the possibly-invalidated handle, the optional error). -/
def SaveContainer (s : SQLiteState) (ctr : Container) :
    SQLiteState × Container × Option StateErr :=
  if !s.valid then (s, ctr, some .dbClosed)
  else if !ctr.valid then (s, ctr, some .ctrRemoved)
  else if (s.db.containerState.filter fun r => r.1 == ctr.id).length == 0 then
    (s, { ctr with valid := false }, some .noSuchCtr)
  else
    ({ s with db := { s.db with
        containerState := s.db.containerState.map (fun r =>
          if r.1 == ctr.id then (r.1, ctr.stateJSON) else r) } },
      ctr, none)

/-- `AddContainerExitCode` (sqlite_state.go:837-867): guards, then in a
transaction `INSERT INTO ContainerExitCode VALUES (?, ?, ?);` with
`(id, time.Now().Unix(), exitCode)`; `now` stands for that clock read. -/
def AddContainerExitCode (s : SQLiteState) (id : String) (now : Int) (exitCode : Int) :
    SQLiteState × Option StateErr :=
  if id.length == 0 then (s, some .emptyID)
  else if !s.valid then (s, some .dbClosed)
  else
    ({ s with db := { s.db with
        containerExitCode :=
          s.db.containerExitCode ++ [{ id := id, timestamp := now, exitCode := exitCode }] } },
      none)

/-- `GetContainerExitCode` (sqlite_state.go:870-890): guards, then
`SELECT ExitCode FROM ContainerExitCode WHERE ID=?;` via `QueryRow`, which
yields the first matching row in rowid order; no row means
`ErrNoSuchExitCode`. -/
def GetContainerExitCode (s : SQLiteState) (id : String) : Except StateErr Int :=
  if id.length == 0 then .error .emptyID
  else if !s.valid then .error .dbClosed
  else
    match s.db.containerExitCode.find? fun r => r.id == id with
    | none => .error .noSuchExitCode
    | some r => .ok r.exitCode

/-- `GetContainerExitCodeTimeStamp` (sqlite_state.go:894-916): like
`GetContainerExitCode` but selecting the `Timestamp` column. -/
def GetContainerExitCodeTimeStamp (s : SQLiteState) (id : String) : Except StateErr Int :=
  if id.length == 0 then .error .emptyID
  else if !s.valid then .error .dbClosed
  else
    match s.db.containerExitCode.find? fun r => r.id == id with
    | none => .error .noSuchExitCode
    | some r => .ok r.timestamp

/-- `PruneContainerExitCodes` (sqlite_state.go:919-947): in a transaction
`DELETE FROM ContainerExitCode WHERE (Timestamp <= ?);` bound to
`time.Now().Add(-5 * time.Minute).Unix()`, i.e. `now - 300` seconds;
`now` stands for that clock read. -/
def PruneContainerExitCodes (s : SQLiteState) (now : Int) :
    SQLiteState × Option StateErr :=
  if !s.valid then (s, some .dbClosed)
  else
    ({ s with db := { s.db with
        containerExitCode :=
          s.db.containerExitCode.filter (fun r => decide (now - 300 < r.timestamp)) } },
      none)

/-- `RemoveVolume` (sqlite_state.go:2205-2257): closed-store guard only --
the handle `valid` flag is NOT checked.  Inside the transaction it selects
`ContainerID FROM ContainerVolume WHERE VolumeName=?`; a non-empty result
fails `ErrVolumeBeingUsed` carrying the container IDs (rollback).
Otherwise it deletes the `VolumeConfig` and `VolumeState` rows of the name
and commits, without checking that any row existed (the source carries a
TODO about returning `ErrNoSuchVolume` there). -/
def RemoveVolume (s : SQLiteState) (volume : Volume) : SQLiteState × Option StateErr :=
  if !s.valid then (s, some .dbClosed)
  else
    match (s.db.containerVolume.filter fun r => r.2 == volume.name).map Prod.fst with
    | [] =>
        ({ s with db := { s.db with
            volumeConfig := s.db.volumeConfig.filter (fun r => !(r.name == volume.name)),
            volumeState := s.db.volumeState.filter (fun r => !(r.1 == volume.name)) } },
          none)
    | c :: cs => (s, some (.volumeBeingUsed (c :: cs)))

/-- `UpdateVolume` (sqlite_state.go:2260-2288): guards, then
`SELECT JSON FROM VolumeState WHERE Name=?;`; no row invalidates the
handle and fails `ErrNoSuchVolume`, otherwise the handle state is replaced
wholesale with the stored JSON.  Returns the updated handle and the
optional error. -/
def UpdateVolume (s : SQLiteState) (volume : Volume) : Volume × Option StateErr :=
  if !s.valid then (volume, some .dbClosed)
  else if !volume.valid then (volume, some .volumeRemoved)
  else
    match s.db.volumeState.find? fun r => r.1 == volume.name with
    | none => ({ volume with valid := false }, some .noSuchVolume)
    | some r => ({ volume with stateJSON := r.2 }, none)

/-- `SaveVolume` (sqlite_state.go:2291-2335): guards, then in a transaction
`UPDATE TABLE VolumeState SET JSON=? WHERE Name=?;` -- like the updates in
`Refresh` this statement is invalid SQLite syntax, so the call always
fails there and rolls back once both guards pass. -/
def SaveVolume (s : SQLiteState) (volume : Volume) :
    SQLiteState × Volume × Option StateErr :=
  if !s.valid then (s, volume, some .dbClosed)
  else if !volume.valid then (s, volume, some .volumeRemoved)
  else (s, volume, some (.sqlMalformed "UPDATE TABLE VolumeState"))

/-- `VolumeInUse` (sqlite_state.go:2488-2513): guards (including the handle
`valid` flag), then `SELECT ContainerID FROM ContainerVolume WHERE
VolumeName=?;`, returning the list of container IDs using the volume. -/
def VolumeInUse (s : SQLiteState) (volume : Volume) : Except StateErr (List String) :=
  if !s.valid then .error .dbClosed
  else if !volume.valid then .error .volumeRemoved
  else .ok ((s.db.containerVolume.filter fun r => r.2 == volume.name).map Prod.fst)

/-- The empty database, as created by `sqliteInitTables` on a fresh store. -/
def emptyDb : Db :=
  { containerConfig := []
    containerState := []
    podState := []
    volumeConfig := []
    volumeState := []
    containerDependency := []
    containerVolume := []
    containerExecSession := []
    containerExitCode := []
    dbConfig := none }

/-- A store holding exactly the two containers of the C1 example: IDs
`abc123` and `abc456`, names `foo` and `bar`, outside any pod. -/
def lookupDemoStore : SQLiteState :=
  { valid := true,
    db := { emptyDb with
      containerConfig :=
        [{ id := "abc123", name := "foo", pod := "", json := "cfg1" },
         { id := "abc456", name := "bar", pod := "", json := "cfg2" }] } }

/-- C1: the claim says lookup matches Name equality or ID-by-prefix, so that
with containers `abc123` and `abc456` present, `abc` is ambiguous and
`abc1` returns the first container.  The code binds the raw term as the
`LIKE` pattern without appending `%`, so a strict partial ID matches
nothing: both `abc` and `abc1` fail `ErrNoSuchCtr` in `LookupContainerID`
and in `LookupContainer`, while the full-ID and exact-name paths do work
-- the code contradicts its own doc comment (`full or unique partial ID or
name`). -/
theorem c1_lookup_no_partial_id_match :
    LookupContainerID lookupDemoStore "abc" = .error .noSuchCtr ∧
    LookupContainerID lookupDemoStore "abc1" = .error .noSuchCtr ∧
    LookupContainer lookupDemoStore "abc" = .error .noSuchCtr ∧
    LookupContainer lookupDemoStore "abc1" = .error .noSuchCtr ∧
    LookupContainerID lookupDemoStore "abc123" = .ok "abc123" ∧
    LookupContainerID lookupDemoStore "foo" = .ok "abc123" := by
  exact ⟨rfl, rfl, rfl, rfl, rfl, rfl⟩

/-- A store holding one container state row (the C2 failing input). -/
def oneCtrStateStore : SQLiteState :=
  { valid := true, db := { emptyDb with containerState := [("c1", "stateJSON1")] } }

/-- A store with no state rows but one exit-code row and one exec-session
row. -/
def ephemeralOnlyStore : SQLiteState :=
  { valid := true,
    db := { emptyDb with
      containerExitCode := [{ id := "c1", timestamp := 5, exitCode := 0 }],
      containerExecSession := [("e1", "c1")] } }

/-- C2: the claim says a successful `Refresh` rewrites every state row to
its reset form and empties the ephemeral tables, and that a second
`Refresh` is a no-op.  In the code the state write-back uses the malformed
statement `UPDATE TABLE ContainerState SET ...`, so `Refresh` FAILS on any
store that has a container (or pod, or volume) state row -- here evaluated
on a store with a single container state row, with identity reset
pipelines.  On a store with no state rows at all, `Refresh` does succeed
and empties the exit-code and exec-session tables. -/
theorem c2_refresh_fails_on_state_rows :
    Refresh (fun j => j) (fun j => j) (fun j => j) oneCtrStateStore
      = (oneCtrStateStore, some (.sqlMalformed "UPDATE TABLE ContainerState")) ∧
    Refresh (fun j => j) (fun j => j) (fun j => j) ephemeralOnlyStore
      = ({ valid := true, db := emptyDb }, none) := by
  exact ⟨rfl, rfl⟩

/-- C3: whenever `Refresh` reports an error, the store it leaves visible is
exactly the store it started from -- the read phase never writes, and any
failure inside the write-back transaction triggers the deferred
`tx.Rollback()`.  Quantified over the reset pipelines, the store, and the
reported error. -/
theorem c3_refresh_rollback (resetCtr resetPod resetVol : String → String)
    (s : SQLiteState) (e : StateErr)
    (h : (Refresh resetCtr resetPod resetVol s).2 = some e) :
    (Refresh resetCtr resetPod resetVol s).1 = s := by
  revert h
  unfold Refresh
  split
  · intro _; rfl
  · split
    · intro h; exact absurd h (by simp)
    · intro _; rfl
    · intro _; rfl
    · intro _; rfl

/-- Witness for C3 at a concrete input: the one-state-row store makes
`Refresh` fail, and the store is returned unchanged. -/
theorem c3_refresh_rollback_witness :
    (Refresh (fun j => j) (fun j => j) (fun j => j) oneCtrStateStore).1
      = oneCtrStateStore := by
  exact c3_refresh_rollback (fun j => j) (fun j => j) (fun j => j) oneCtrStateStore
    (.sqlMalformed "UPDATE TABLE ContainerState") rfl

/-- C4 counterexample: the claim says `RemoveContainer` refuses a pod-joined
container with InvalidArgument, but on a concrete pod-joined container the
code returns the `ErrPodExists` sentinel, which is not `ErrInvalidArg`
(the removal helper, here instantiated with a no-op, is never reached). -/
theorem c4_remove_container_error_is_pod_exists :
    RemoveContainer (fun s _ => (s, none)) { valid := true, db := emptyDb }
        { id := "c1", pod := "p1", valid := true, stateJSON := "{}" }
      = ({ valid := true, db := emptyDb }, some .podExists) ∧
    StateErr.podExists ≠ StateErr.invalidArg := by
  exact ⟨rfl, by decide⟩

/-- C4 amended: on an open store, for every container whose config carries a
non-empty pod reference, `AddContainer` fails with `ErrInvalidArg` and
`RemoveContainer` fails with `ErrPodExists`; both return before invoking
the shared insertion/removal helpers (the result is the same for every
helper), so nothing is inserted or deleted and the store is unchanged. -/
theorem c4_pod_guards
    (addCtr removeCtr : SQLiteState → Container → SQLiteState × Option StateErr)
    (s : SQLiteState) (ctr : Container)
    (hs : s.valid = true) (hc : ctr.valid = true) (hp : ctr.pod ≠ "") :
    AddContainer addCtr s ctr = (s, some .invalidArg) ∧
    RemoveContainer removeCtr s ctr = (s, some .podExists) := by
  unfold AddContainer RemoveContainer
  simp [hs, hc, hp]

/-- Witness for C4 amended at a concrete pod-joined container. -/
theorem c4_pod_guards_witness :
    AddContainer (fun s _ => (s, none)) { valid := true, db := emptyDb }
        { id := "c1", pod := "p1", valid := true, stateJSON := "{}" }
      = ({ valid := true, db := emptyDb }, some .invalidArg) := by
  exact (c4_pod_guards (fun s _ => (s, none)) (fun s _ => (s, none))
    { valid := true, db := emptyDb }
    { id := "c1", pod := "p1", valid := true, stateJSON := "{}" }
    rfl rfl (by decide)).1

/-- C5 counterexample: the claim says every operation on an Invalidated
handle fails fast, including `RemoveVolume`.  Here `UpdateVolume` on an
empty store invalidates the handle for volume `v1` (its state row is
missing), yet `RemoveVolume` on that very handle returns success (`none`)
instead of failing -- `RemoveVolume` never consults the flag. -/
theorem c5_remove_volume_ignores_invalidated_handle :
    ((UpdateVolume { valid := true, db := emptyDb }
        { name := "v1", valid := true, stateJSON := "{}" }).1).valid = false ∧
    RemoveVolume { valid := true, db := emptyDb }
        ((UpdateVolume { valid := true, db := emptyDb }
          { name := "v1", valid := true, stateJSON := "{}" }).1)
      = ({ valid := true, db := emptyDb }, none) := by
  exact ⟨rfl, rfl⟩

/-- C5 amended: on an open store, the handle-taking operations that check
the Live/Invalidated flag -- `SaveContainer` and `AddContainer` for
containers, `UpdateVolume`, `SaveVolume` and `VolumeInUse` for volumes --
fail fast with the removed-entity sentinel once the handle is Invalidated,
before consulting any table (the result is fixed regardless of the
database contents); but `RemoveVolume` does not check the flag at all and
behaves identically on Live and Invalidated handles. -/
theorem c5_invalidated_fail_fast (s : SQLiteState) (v : Volume) (ctr : Container)
    (addCtr : SQLiteState → Container → SQLiteState × Option StateErr) (b : Bool)
    (hs : s.valid = true) (hv : v.valid = false) (hc : ctr.valid = false) :
    UpdateVolume s v = (v, some .volumeRemoved) ∧
    SaveVolume s v = (s, v, some .volumeRemoved) ∧
    VolumeInUse s v = .error .volumeRemoved ∧
    SaveContainer s ctr = (s, ctr, some .ctrRemoved) ∧
    AddContainer addCtr s ctr = (s, some .ctrRemoved) ∧
    RemoveVolume s { v with valid := b } = RemoveVolume s v := by
  unfold UpdateVolume SaveVolume VolumeInUse SaveContainer AddContainer RemoveVolume
  simp [hs, hv, hc]

/-- Witness for C5 amended at concrete Invalidated handles. -/
theorem c5_invalidated_fail_fast_witness :
    UpdateVolume { valid := true, db := emptyDb }
        { name := "v1", valid := false, stateJSON := "{}" }
      = ({ name := "v1", valid := false, stateJSON := "{}" }, some .volumeRemoved) := by
  exact (c5_invalidated_fail_fast { valid := true, db := emptyDb }
    { name := "v1", valid := false, stateJSON := "{}" }
    { id := "c1", pod := "", valid := false, stateJSON := "{}" }
    (fun s _ => (s, none)) true rfl rfl rfl).1

/-- C6: on an open store, `RemoveVolume` is gated by the usage edges: if the
`ContainerVolume` query returns a non-empty container list, the call fails
`ErrVolumeBeingUsed` carrying exactly that list and the store is returned
unchanged; if the list is empty, the call succeeds and the resulting store
keeps exactly the `VolumeConfig` and `VolumeState` rows of other names
(both deletions in the one transaction), with the other tables and the
open flag untouched. -/
theorem c6_remove_volume_in_use_guard (s : SQLiteState) (v : Volume)
    (hs : s.valid = true) :
    (∀ c cs,
      (s.db.containerVolume.filter (fun r => r.2 == v.name)).map Prod.fst = c :: cs →
        RemoveVolume s v = (s, some (.volumeBeingUsed (c :: cs)))) ∧
    ((s.db.containerVolume.filter (fun r => r.2 == v.name)).map Prod.fst = [] →
      ∃ s2, RemoveVolume s v = (s2, none) ∧
        (∀ r, r ∈ s2.db.volumeConfig ↔ r ∈ s.db.volumeConfig ∧ r.name ≠ v.name) ∧
        (∀ r, r ∈ s2.db.volumeState ↔ r ∈ s.db.volumeState ∧ r.1 ≠ v.name) ∧
        s2.valid = s.valid ∧
        s2.db.containerConfig = s.db.containerConfig ∧
        s2.db.containerState = s.db.containerState ∧
        s2.db.containerVolume = s.db.containerVolume ∧
        s2.db.containerDependency = s.db.containerDependency) := by
  constructor
  · intro c cs hcs
    simp [RemoveVolume, hs, hcs]
  · intro hnil
    have heq : RemoveVolume s v
        = ({ s with db := { s.db with
            volumeConfig := s.db.volumeConfig.filter (fun r => !(r.name == v.name)),
            volumeState := s.db.volumeState.filter (fun r => !(r.1 == v.name)) } },
          none) := by
      simp [RemoveVolume, hs, hnil]
    refine ⟨_, heq, ?_, ?_, rfl, rfl, rfl, rfl, rfl⟩
    · intro r; simp [List.mem_filter]
    · intro r; simp [List.mem_filter]

/-- Witness for C6 at a concrete store: volume `v1` is used by container
`ctrX`, so removal fails listing exactly `[ctrX]`. -/
theorem c6_remove_volume_in_use_guard_witness :
    RemoveVolume
        { valid := true,
          db := { emptyDb with
            volumeConfig := [{ name := "v1", storageID := none, json := "{}" }],
            volumeState := [("v1", "{}")],
            containerVolume := [("ctrX", "v1")] } }
        { name := "v1", valid := true, stateJSON := "{}" }
      = ({ valid := true,
           db := { emptyDb with
             volumeConfig := [{ name := "v1", storageID := none, json := "{}" }],
             volumeState := [("v1", "{}")],
             containerVolume := [("ctrX", "v1")] } },
         some (.volumeBeingUsed ["ctrX"])) := by
  exact (c6_remove_volume_in_use_guard _ _ rfl).1 "ctrX" [] rfl

/-- C7: on an open store and a Live container handle, `SaveContainer`
writes the marshalled handle state over the matching `ContainerState` row:
if the update affects zero rows (the state row vanished concurrently), the
handle is invalidated and the call fails `ErrNoSuchCtr` with the store
unchanged; if it affects a row, the call commits -- the matching row now
holds the handle state, every other row and table is untouched, and the
handle stays Live. -/
theorem c7_save_container (s : SQLiteState) (ctr : Container)
    (hs : s.valid = true) (hc : ctr.valid = true) :
    ((s.db.containerState.filter (fun r => r.1 == ctr.id)).length = 0 →
        SaveContainer s ctr = (s, { ctr with valid := false }, some .noSuchCtr)) ∧
    ((s.db.containerState.filter (fun r => r.1 == ctr.id)).length ≠ 0 →
      ∃ s2, SaveContainer s ctr = (s2, ctr, none) ∧
        s2.db.containerState
          = s.db.containerState.map
              (fun r => if r.1 == ctr.id then (r.1, ctr.stateJSON) else r) ∧
        s2.valid = s.valid ∧
        s2.db.containerConfig = s.db.containerConfig ∧
        s2.db.volumeConfig = s.db.volumeConfig ∧
        s2.db.volumeState = s.db.volumeState ∧
        s2.db.containerExitCode = s.db.containerExitCode ∧
        s2.db.containerExecSession = s.db.containerExecSession) := by
  constructor
  · intro h0
    simp [SaveContainer, hs, hc, h0]
  · intro hpos
    have heq : SaveContainer s ctr
        = ({ s with db := { s.db with
            containerState := s.db.containerState.map
              (fun r => if r.1 == ctr.id then (r.1, ctr.stateJSON) else r) } },
          ctr, none) := by
      simp [SaveContainer, hs, hc, hpos]
    exact ⟨_, heq, rfl, rfl, rfl, rfl, rfl, rfl, rfl⟩

/-- Witness for C7 at a concrete store: saving container `c1` whose state
row exists rewrites that row and succeeds. -/
theorem c7_save_container_witness :
    ∃ s2, SaveContainer
        { valid := true, db := { emptyDb with containerState := [("c1", "old")] } }
        { id := "c1", pod := "", valid := true, stateJSON := "new" }
      = (s2, { id := "c1", pod := "", valid := true, stateJSON := "new" }, none) ∧
      s2.db.containerState = [("c1", "new")] := by
  obtain ⟨s2, heq, hstate, -⟩ := (c7_save_container
    { valid := true, db := { emptyDb with containerState := [("c1", "old")] } }
    { id := "c1", pod := "", valid := true, stateJSON := "new" }
    rfl rfl).2 (by decide)
  exact ⟨s2, heq, hstate.trans rfl⟩

/-- C8: on an open store, `ValidateDBConfig` with no `DBConfig` row writes
the runtime values (OS, static/tmp dirs, graph/run roots with store-option
defaults for empty values, graph driver, volume path) as the stored row
and succeeds.  With a row present, every field is compared to the live
runtime value in source order, and the first mismatched field makes the
call fail `ErrDBBadConfig` naming that field -- os, static dir, tmp dir,
graph root, run root, graph driver, or volume path -- together with its
stored and live values, leaving the store unchanged (one clause per
field); when the row mismatches the live values in any way the call fails
with some `ErrDBBadConfig` (completeness clause); and when every field
matches, the call succeeds and changes nothing. -/
theorem c8_validate_db_config (s : SQLiteState) (rt : RuntimeConfig) (so : StoreOptions)
    (hs : s.valid = true) :
    (s.db.dbConfig = none →
      ValidateDBConfig s rt so
        = ({ s with db := { s.db with dbConfig := some (freshDBConfigRow rt so) } },
          none)) ∧
    (∀ c, s.db.dbConfig = some c →
      (c.os ≠ rt.os →
        ValidateDBConfig s rt so = (s, some (.dbBadConfig "os" c.os rt.os))) ∧
      (c.os = rt.os → c.staticDir ≠ rt.staticDir →
        ValidateDBConfig s rt so
          = (s, some (.dbBadConfig "static dir" c.staticDir rt.staticDir))) ∧
      (c.os = rt.os → c.staticDir = rt.staticDir → c.tmpDir ≠ rt.tmpDir →
        ValidateDBConfig s rt so
          = (s, some (.dbBadConfig "tmp dir" c.tmpDir rt.tmpDir))) ∧
      (c.os = rt.os → c.staticDir = rt.staticDir → c.tmpDir = rt.tmpDir →
        c.graphRoot ≠ effGraphRoot rt so →
        ValidateDBConfig s rt so
          = (s, some (.dbBadConfig "graph root" c.graphRoot (effGraphRoot rt so)))) ∧
      (c.os = rt.os → c.staticDir = rt.staticDir → c.tmpDir = rt.tmpDir →
        c.graphRoot = effGraphRoot rt so → c.runRoot ≠ effRunRoot rt so →
        ValidateDBConfig s rt so
          = (s, some (.dbBadConfig "run root" c.runRoot (effRunRoot rt so)))) ∧
      (c.os = rt.os → c.staticDir = rt.staticDir → c.tmpDir = rt.tmpDir →
        c.graphRoot = effGraphRoot rt so → c.runRoot = effRunRoot rt so →
        c.graphDriver ≠ effGraphDriver rt so →
        ValidateDBConfig s rt so
          = (s, some (.dbBadConfig "graph driver" c.graphDriver (effGraphDriver rt so)))) ∧
      (c.os = rt.os → c.staticDir = rt.staticDir → c.tmpDir = rt.tmpDir →
        c.graphRoot = effGraphRoot rt so → c.runRoot = effRunRoot rt so →
        c.graphDriver = effGraphDriver rt so → c.volumeDir ≠ rt.volumePath →
        ValidateDBConfig s rt so
          = (s, some (.dbBadConfig "volume path" c.volumeDir rt.volumePath))) ∧
      (c.os = rt.os → c.staticDir = rt.staticDir → c.tmpDir = rt.tmpDir →
        c.graphRoot = effGraphRoot rt so → c.runRoot = effRunRoot rt so →
        c.graphDriver = effGraphDriver rt so → c.volumeDir = rt.volumePath →
        ValidateDBConfig s rt so = (s, none)) ∧
      (¬(c.os = rt.os ∧ c.staticDir = rt.staticDir ∧ c.tmpDir = rt.tmpDir ∧
          c.graphRoot = effGraphRoot rt so ∧ c.runRoot = effRunRoot rt so ∧
          c.graphDriver = effGraphDriver rt so ∧ c.volumeDir = rt.volumePath) →
        ∃ f dbv ourv,
          ValidateDBConfig s rt so = (s, some (.dbBadConfig f dbv ourv)))) := by
  refine ⟨fun hnone => by simp [ValidateDBConfig, hs, hnone], fun c hsome => ?_⟩
  have n1 : c.os ≠ rt.os →
      ValidateDBConfig s rt so = (s, some (.dbBadConfig "os" c.os rt.os)) :=
    fun e1 => by simp [ValidateDBConfig, hs, hsome, e1]
  have n2 : c.os = rt.os → c.staticDir ≠ rt.staticDir →
      ValidateDBConfig s rt so
        = (s, some (.dbBadConfig "static dir" c.staticDir rt.staticDir)) :=
    fun e1 e2 => by simp [ValidateDBConfig, hs, hsome, e1, e2]
  have n3 : c.os = rt.os → c.staticDir = rt.staticDir → c.tmpDir ≠ rt.tmpDir →
      ValidateDBConfig s rt so
        = (s, some (.dbBadConfig "tmp dir" c.tmpDir rt.tmpDir)) :=
    fun e1 e2 e3 => by simp [ValidateDBConfig, hs, hsome, e1, e2, e3]
  have n4 : c.os = rt.os → c.staticDir = rt.staticDir → c.tmpDir = rt.tmpDir →
      c.graphRoot ≠ effGraphRoot rt so →
      ValidateDBConfig s rt so
        = (s, some (.dbBadConfig "graph root" c.graphRoot (effGraphRoot rt so))) :=
    fun e1 e2 e3 e4 => by simp [ValidateDBConfig, hs, hsome, e1, e2, e3, e4]
  have n5 : c.os = rt.os → c.staticDir = rt.staticDir → c.tmpDir = rt.tmpDir →
      c.graphRoot = effGraphRoot rt so → c.runRoot ≠ effRunRoot rt so →
      ValidateDBConfig s rt so
        = (s, some (.dbBadConfig "run root" c.runRoot (effRunRoot rt so))) :=
    fun e1 e2 e3 e4 e5 => by simp [ValidateDBConfig, hs, hsome, e1, e2, e3, e4, e5]
  have n6 : c.os = rt.os → c.staticDir = rt.staticDir → c.tmpDir = rt.tmpDir →
      c.graphRoot = effGraphRoot rt so → c.runRoot = effRunRoot rt so →
      c.graphDriver ≠ effGraphDriver rt so →
      ValidateDBConfig s rt so
        = (s, some (.dbBadConfig "graph driver" c.graphDriver (effGraphDriver rt so))) :=
    fun e1 e2 e3 e4 e5 e6 =>
      by simp [ValidateDBConfig, hs, hsome, e1, e2, e3, e4, e5, e6]
  have n7 : c.os = rt.os → c.staticDir = rt.staticDir → c.tmpDir = rt.tmpDir →
      c.graphRoot = effGraphRoot rt so → c.runRoot = effRunRoot rt so →
      c.graphDriver = effGraphDriver rt so → c.volumeDir ≠ rt.volumePath →
      ValidateDBConfig s rt so
        = (s, some (.dbBadConfig "volume path" c.volumeDir rt.volumePath)) :=
    fun e1 e2 e3 e4 e5 e6 e7 =>
      by simp [ValidateDBConfig, hs, hsome, e1, e2, e3, e4, e5, e6, e7]
  have n8 : c.os = rt.os → c.staticDir = rt.staticDir → c.tmpDir = rt.tmpDir →
      c.graphRoot = effGraphRoot rt so → c.runRoot = effRunRoot rt so →
      c.graphDriver = effGraphDriver rt so → c.volumeDir = rt.volumePath →
      ValidateDBConfig s rt so = (s, none) :=
    fun e1 e2 e3 e4 e5 e6 e7 =>
      by simp [ValidateDBConfig, hs, hsome, e1, e2, e3, e4, e5, e6, e7]
  refine ⟨n1, n2, n3, n4, n5, n6, n7, n8, ?_⟩
  intro hne
  by_cases e1 : c.os = rt.os
  · by_cases e2 : c.staticDir = rt.staticDir
    · by_cases e3 : c.tmpDir = rt.tmpDir
      · by_cases e4 : c.graphRoot = effGraphRoot rt so
        · by_cases e5 : c.runRoot = effRunRoot rt so
          · by_cases e6 : c.graphDriver = effGraphDriver rt so
            · by_cases e7 : c.volumeDir = rt.volumePath
              · exact absurd ⟨e1, e2, e3, e4, e5, e6, e7⟩ hne
              · exact ⟨_, _, _, n7 e1 e2 e3 e4 e5 e6 e7⟩
            · exact ⟨_, _, _, n6 e1 e2 e3 e4 e5 e6⟩
          · exact ⟨_, _, _, n5 e1 e2 e3 e4 e5⟩
        · exact ⟨_, _, _, n4 e1 e2 e3 e4⟩
      · exact ⟨_, _, _, n3 e1 e2 e3⟩
    · exact ⟨_, _, _, n2 e1 e2⟩
  · exact ⟨_, _, _, n1 e1⟩

/-- A concrete runtime configuration for the C8 witness. -/
def rtDemo : RuntimeConfig :=
  { os := "linux", staticDir := "/s", tmpDir := "/t", graphRoot := "/g",
    runRoot := "/r", graphDriver := "overlay", volumePath := "/v" }

/-- Concrete store-option defaults for the C8 witness. -/
def soDemo : StoreOptions :=
  { graphRoot := "/dg", runRoot := "/dr", graphDriverName := "dd" }

/-- Witness for C8: on a fresh store the runtime row is written and the
call succeeds. -/
theorem c8_validate_db_config_witness :
    ValidateDBConfig { valid := true, db := emptyDb } rtDemo soDemo
      = ({ valid := true,
           db := { emptyDb with dbConfig := some (freshDBConfigRow rtDemo soDemo) } },
         none) := by
  exact (c8_validate_db_config { valid := true, db := emptyDb } rtDemo soDemo rfl).1 rfl

/-- `List.find?` skips a block in which no element satisfies the predicate. -/
theorem find_skip_block {α : Type} (p : α → Bool) (l l2 : List α)
    (h : l.find? p = none) : (l ++ l2).find? p = l2.find? p := by
  induction l with
  | nil => rfl
  | cons a t ih =>
    cases hpa : p a with
    | true => rw [List.find?_cons_of_pos _ hpa] at h; exact absurd h (by simp)
    | false =>
        rw [List.find?_cons_of_neg _ (by simp [hpa])] at h
        rw [List.cons_append, List.find?_cons_of_neg _ (by simp [hpa])]
        exact ih h

/-- `List.find?` keeps its first hit when more elements are appended. -/
theorem find_keeps_first_hit {α : Type} (p : α → Bool) (l l2 : List α) (a : α)
    (h : l.find? p = some a) : (l ++ l2).find? p = some a := by
  induction l with
  | nil => exact absurd h (by simp)
  | cons x t ih =>
    cases hpx : p x with
    | true =>
        rw [List.find?_cons_of_pos _ hpx] at h
        rw [List.cons_append, List.find?_cons_of_pos _ hpx]
        exact h
    | false =>
        rw [List.find?_cons_of_neg _ (by simp [hpx])] at h
        rw [List.cons_append, List.find?_cons_of_neg _ (by simp [hpx])]
        exact ih h

/-- C9 amended: on an open store and a non-empty container ID --
(1) with no existing record for the ID, both getters fail
`ErrNoSuchExitCode`; `AddContainerExitCode id now code` succeeds, after
which `GetContainerExitCode` returns `code` and
`GetContainerExitCodeTimeStamp` returns `now`;
(2) with an existing record, `AddContainerExitCode` still succeeds and
appends a second row, but both getters -- before and after the insert --
keep returning the earliest stored record (`QueryRow` yields the first
matching row), so the just-recorded code is not the one read back;
(3) pruning at any time `t` keeps exactly the records whose timestamp is
strictly greater than `t - 300` -- it deletes the records that are at
least the five-minute retention window old (`Timestamp <= t - 300`), not
only the strictly older ones. -/
theorem c9_exit_code_bookkeeping (s : SQLiteState) (id : String) (now code : Int)
    (hs : s.valid = true) (hid : id.length ≠ 0) :
    (s.db.containerExitCode.find? (fun r => r.id == id) = none →
      GetContainerExitCode s id = .error .noSuchExitCode ∧
      GetContainerExitCodeTimeStamp s id = .error .noSuchExitCode ∧
      ∃ s2, AddContainerExitCode s id now code = (s2, none) ∧
        GetContainerExitCode s2 id = .ok code ∧
        GetContainerExitCodeTimeStamp s2 id = .ok now) ∧
    (∀ r0, s.db.containerExitCode.find? (fun r => r.id == id) = some r0 →
      GetContainerExitCode s id = .ok r0.exitCode ∧
      ∃ s2, AddContainerExitCode s id now code = (s2, none) ∧
        s2.db.containerExitCode
          = s.db.containerExitCode
              ++ [{ id := id, timestamp := now, exitCode := code }] ∧
        GetContainerExitCode s2 id = .ok r0.exitCode ∧
        GetContainerExitCodeTimeStamp s2 id = .ok r0.timestamp) ∧
    (∀ t r, r ∈ ((PruneContainerExitCodes s t).1).db.containerExitCode
        ↔ (r ∈ s.db.containerExitCode ∧ t - 300 < r.timestamp)) := by
  have heq : AddContainerExitCode s id now code
      = ({ s with db := { s.db with
          containerExitCode :=
            s.db.containerExitCode ++ [{ id := id, timestamp := now, exitCode := code }] } },
        none) := by
    simp [AddContainerExitCode, hs, hid]
  refine ⟨fun hfresh => ?_, fun r0 hsome => ?_, fun t r => ?_⟩
  · refine ⟨by simp [GetContainerExitCode, hs, hid, hfresh],
      by simp [GetContainerExitCodeTimeStamp, hs, hid, hfresh], _, heq, ?_, ?_⟩
    · simp [GetContainerExitCode, hs, hid, find_skip_block _ _ _ hfresh]
    · simp [GetContainerExitCodeTimeStamp, hs, hid, find_skip_block _ _ _ hfresh]
  · refine ⟨by simp [GetContainerExitCode, hs, hid, hsome], _, heq, rfl, ?_, ?_⟩
    · simp [GetContainerExitCode, hs, hid, find_keeps_first_hit _ _ _ _ hsome]
    · simp [GetContainerExitCodeTimeStamp, hs, hid, find_keeps_first_hit _ _ _ _ hsome]
  · simp [PruneContainerExitCodes, hs, List.mem_filter]

/-- Witness for C9 amended: recording exit code 137 for container `c1` on a
fresh store and reading it back. -/
theorem c9_exit_code_bookkeeping_witness :
    ∃ s2, AddContainerExitCode { valid := true, db := emptyDb } "c1" 1000 137
        = (s2, none) ∧
      GetContainerExitCode s2 "c1" = .ok 137 := by
  obtain ⟨-, -, s2, h1, h2, -⟩ :=
    (c9_exit_code_bookkeeping { valid := true, db := emptyDb } "c1" 1000 137
      rfl (by decide)).1 rfl
  exact ⟨s2, h1, h2⟩

/-- C9 counterexample: two concrete inputs where the claim as stated fails.
(1) Prune boundary: a record whose timestamp sits exactly at the cutoff
(`now - 300`, here 700 with `now = 1000`) is not older than the five-minute
retention window, yet the code (`Timestamp <= ?`) deletes it.
(2) Stale read after re-record: with a record `(c1, 900, 1)` already
stored, `AddContainerExitCode "c1" 1000 137` succeeds (plain `INSERT`, no
uniqueness on ID), but a subsequent `GetContainerExitCode "c1"` returns
the old code 1, not the just-recorded 137 as the claim demands for every
container ID. -/
theorem c9_record_and_prune_divergences :
    ((PruneContainerExitCodes
        { valid := true,
          db := { emptyDb with
            containerExitCode := [{ id := "c1", timestamp := 700, exitCode := 137 }] } }
        1000).1).db.containerExitCode = [] ∧
    ¬((700 : Int) < 1000 - 300) ∧
    (AddContainerExitCode
        { valid := true,
          db := { emptyDb with
            containerExitCode := [{ id := "c1", timestamp := 900, exitCode := 1 }] } }
        "c1" 1000 137).2 = none ∧
    GetContainerExitCode
        ((AddContainerExitCode
          { valid := true,
            db := { emptyDb with
              containerExitCode := [{ id := "c1", timestamp := 900, exitCode := 1 }] } }
          "c1" 1000 137).1) "c1" = .ok 1 ∧
    (1 : Int) ≠ 137 := by
  exact ⟨rfl, by decide, rfl, rfl, by decide⟩

/-- C10: on an open store, removing a volume whose name matches no
`VolumeConfig` row, no `VolumeState` row (guaranteed by the cascade
foreign key whenever no config row exists) and no `ContainerVolume` usage
edge succeeds -- no `ErrNoSuchVolume` is raised -- and returns the store
unchanged. -/
theorem c10_remove_absent_volume (s : SQLiteState) (v : Volume)
    (hs : s.valid = true)
    (hedge : ∀ r ∈ s.db.containerVolume, r.2 ≠ v.name)
    (hcfg : ∀ r ∈ s.db.volumeConfig, r.name ≠ v.name)
    (hst : ∀ r ∈ s.db.volumeState, r.1 ≠ v.name) :
    RemoveVolume s v = (s, none) := by
  have h1 : s.db.containerVolume.filter (fun r => r.2 == v.name) = [] :=
    List.filter_eq_nil_iff.mpr (fun a ha => by simp [hedge a ha])
  have h2 : s.db.volumeConfig.filter (fun r => !(r.name == v.name)) = s.db.volumeConfig :=
    List.filter_eq_self.mpr (fun a ha => by simp [hcfg a ha])
  have h3 : s.db.volumeState.filter (fun r => !(r.1 == v.name)) = s.db.volumeState :=
    List.filter_eq_self.mpr (fun a ha => by simp [hst a ha])
  obtain ⟨sv, sdb⟩ := s
  simp only [RemoveVolume] at *
  simp [hs, h1, h2, h3]

/-- Witness for C10: removing the unknown volume `v1` from an empty open
store succeeds. -/
theorem c10_remove_absent_volume_witness :
    RemoveVolume { valid := true, db := emptyDb }
        { name := "v1", valid := true, stateJSON := "{}" }
      = ({ valid := true, db := emptyDb }, none) := by
  exact c10_remove_absent_volume { valid := true, db := emptyDb }
    { name := "v1", valid := true, stateJSON := "{}" } rfl
    (by simp [emptyDb]) (by simp [emptyDb]) (by simp [emptyDb])

end Libpod
